import Mathlib

/-!
Verification of the request-classification and diff-baseline engine of the
`rep` browser-extension request-crafting tool.

The development shallowly embeds:
  * the keyboard-shortcut matching and dispatch logic of the request-handler
    module (`matchesShortcut`, the keydown handler of `initKeyboardShortcuts`),
  * the send-request session logic (`handleSendRequest`): history append,
    response building, the diff-baseline protocol and the display decision,
    and the error path,
  * the settings module (`settings.js`): `DEFAULT_OOS_PATTERNS`,
    `reclassifyAllRequests`, and the OOS-pattern handling of `loadSettings`,
  * the scope classifier (`isOutOfScope` lives in `state.js`, which is not
    part of the available sources; it is modelled from the specification).

External collaborators (`renderDiff`, `highlightHTTP`, regex evaluation,
JSON pretty-printing, `formatBytes`) are kept abstract: either as opaque-free
function parameters or as symbolic markup constructors, since only their
invocation contract matters here.
-/

namespace Rep

/-! ## Keyboard shortcuts (request-handler module) -/

/-- The relevant fields of a DOM keyboard event. -/
structure KeyEventRec where
  code : String
  ctrlKey : Bool
  metaKey : Bool
  shiftKey : Bool
  altKey : Bool
  deriving Repr, DecidableEq

/-- A chord descriptor, as persisted in `settings.keyboardShortcuts`. -/
structure Shortcut where
  key : String
  ctrl : Bool
  shift : Bool
  alt : Bool
  description : String
  deriving Repr, DecidableEq

/-- Embedding of `matchesShortcut(event, shortcut)` from the request-handler
module: each modifier flag demands exact presence/absence (ctrl accepts meta),
and the event code must equal the chord key. -/
def matchesShortcut (event : KeyEventRec) (shortcut : Shortcut) : Bool :=
  let ctrlMatch :=
    if shortcut.ctrl then (event.ctrlKey || event.metaKey)
    else !(event.ctrlKey || event.metaKey)
  let shiftMatch := if shortcut.shift then event.shiftKey else !event.shiftKey
  let altMatch := if shortcut.alt then event.altKey else !event.altKey
  let keyMatch := event.code == shortcut.key
  keyMatch && ctrlMatch && shiftMatch && altMatch

/-- The action identifiers that have handlers in `SHORTCUT_ACTIONS`
(the keys of the action table of the request-handler module). -/
def registeredActionIds : List String := ["sendRequest", "clearInput", "toggleOOS"]

/-- Embedding of the binding-set selection of the keydown handler (and of
`getKeyboardShortcuts`): the custom map is used when it is non-empty,
otherwise the default map.  A JS object is modelled as an association list in
iteration (insertion) order; a `null`/absent custom map is the `none` case. -/
def effectiveShortcuts (value : Option (List (String × Shortcut)))
    (dflt : List (String × Shortcut)) : List (String × Shortcut) :=
  match value with
  | none => dflt
  | some v => if v.isEmpty then dflt else v

/-- Embedding of the scanning loop of the keydown handler installed by
`initKeyboardShortcuts`: returns the action id of the first binding whose
chord matches the event, `none` when no binding matches. -/
def dispatchShortcut (shortcuts : List (String × Shortcut)) (e : KeyEventRec) :
    Option String :=
  match shortcuts with
  | [] => none
  | (actionId, sc) :: rest =>
    if matchesShortcut e sc then some actionId else dispatchShortcut rest e

/-- Embedding of the full keydown handler body: the result is the list of
action ids actually invoked (empty or a singleton) together with whether
`preventDefault` was called.  On the first matching binding the handler calls
`preventDefault`, invokes the action only when `SHORTCUT_ACTIONS` has an entry
for the id, and returns. -/
def runKeydown (shortcuts : List (String × Shortcut)) (e : KeyEventRec) :
    List String × Bool :=
  match shortcuts with
  | [] => ([], false)
  | (actionId, sc) :: rest =>
    if matchesShortcut e sc then
      (if registeredActionIds.contains actionId then [actionId] else [], true)
    else
      runKeydown rest e

/-! ## Send-request session logic (`handleSendRequest`) -/

/-- Error information carried by a JS `Error` (its `message` and `stack`). -/
structure ErrInfo where
  message : String
  stack : String
  deriving Repr, DecidableEq

/-- The result object of `executeRequest`:
`{status, statusText, duration, size, headers, body}`. -/
structure ExecResult where
  status : Nat
  statusText : String
  duration : Nat
  size : Nat
  headers : List (String × String)
  body : String
  deriving Repr, DecidableEq

/-- The relevant part of the result of `parseRequest` (only `url` is used by
the session logic itself; `options` is consumed by `executeRequest`, which is
modelled by its outcome). -/
structure ParsedRequest where
  url : String
  deriving Repr, DecidableEq

/-- Symbolic markup produced by the external rendering collaborators of
`utils.js`; the constructors record which function was invoked and with which
arguments. -/
inductive Markup where
  | renderDiff (old cur : String)
  | highlightHTTP (text : String)
  deriving Repr, DecidableEq

/-- Content of the response display element: set via `innerHTML` with markup,
via `textContent` with plain text, or not yet set. -/
inductive DisplayContent where
  | unset
  | html (m : Markup)
  | text (s : String)
  deriving Repr, DecidableEq

/-- The DOM element state read and written by `handleSendRequest`.
`showDiffCheckbox = none` models an absent element, `some b` an element whose
`checked` property is `b`. -/
structure Elements where
  rawRequestInputText : String
  useHttpsChecked : Bool
  resStatusText : String
  resStatusClass : String
  resTimeText : String
  resSizeText : String
  showDiffCheckbox : Option Bool
  diffToggleDisplay : String
  rawResponseDisplay : DisplayContent
  rawResponseDisplayShown : Bool
  rawResponseDisplayVisible : Bool
  deriving Repr, DecidableEq

/-- The session state fields of the `state` object touched or preserved by
the send path: the current response, the diff baseline, the request history,
and the two classification pattern lists (which the send path never writes). -/
structure SessionState where
  currentResponse : Option String
  regularRequestBaseline : Option String
  history : List (String × Bool)
  oosPatterns : List String
  inScopePatterns : List String
  deriving Repr, DecidableEq

/-- JS truthiness of a nullable string: `null`/absent and the empty string are
falsy, every other string is truthy. -/
def jsTruthyStr : Option String → Bool
  | none => false
  | some s => !(s == "")

/-- JS strict equality `baseline === rawResponse` where `baseline` is a
nullable string: `null` is never strictly equal to a string. -/
def baselineEq : Option String → String → Bool
  | none, _ => false
  | some b, s => b == s

/-- The condition `elements.showDiffCheckbox && elements.showDiffCheckbox.checked`:
true only when the element exists and is checked. -/
def showDiffOn (el : Elements) : Bool :=
  match el.showDiffCheckbox with
  | none => false
  | some c => c

/-- Embedding of the raw-HTTP-response construction of `handleSendRequest`:
the status line, one line per header pair, a blank line, then the body —
pretty-printed when it parses as JSON.  `pretty` models
`JSON.stringify(JSON.parse(body), null, 2)`: `some` when the body parses,
`none` when parsing throws and the raw body is used unmodified. -/
def buildRawResponse (pretty : String → Option String) (r : ExecResult) : String :=
  let statusLine := "HTTP/1.1 " ++ toString r.status ++ " " ++ r.statusText ++ "\n"
  let withHeaders :=
    r.headers.foldl (fun acc kv => acc ++ kv.1 ++ ": " ++ kv.2 ++ "\n") statusLine
  match pretty r.body with
  | some pb => withHeaders ++ "\n" ++ pb
  | none => withHeaders ++ "\n" ++ r.body

/-- The status-badge class computation of the success path (the class was
reset to `status-badge` before the send and is refined only for 2xx, 4xx and
5xx-or-above statuses). -/
def statusClass (s : Nat) : String :=
  if 200 ≤ s ∧ s < 300 then "status-badge status-2xx"
  else if 400 ≤ s ∧ s < 500 then "status-badge status-4xx"
  else if 500 ≤ s then "status-badge status-5xx"
  else "status-badge"

/-- Observable events emitted during one `handleSendRequest` call, in order:
the history append and the attempt of the network call. -/
inductive SendEvent where
  | historyAppend (raw : String) (https : Bool)
  | networkAttempt
  deriving Repr, DecidableEq

/-- The outcome of one `handleSendRequest` call: final session state, final
element state, and the ordered event trace. -/
structure SendOutcome where
  state : SessionState
  elements : Elements
  trace : List SendEvent
  deriving Repr, DecidableEq

/-- The `catch` block of `handleSendRequest`: status text `Error`, 5xx badge
class, `0ms` timing, and the error message plus stack written to the response
display via `textContent`. -/
def applyErrorDisplay (el : Elements) (e : ErrInfo) : Elements :=
  { el with
    resStatusText := "Error"
    resStatusClass := "status-badge status-5xx"
    resTimeText := "0ms"
    rawResponseDisplay := .text ("Error: " ++ e.message ++ "\n\nStack: " ++ e.stack)
    rawResponseDisplayShown := true }

/-- Embedding of `handleSendRequest`.  Inputs: `pretty` models the JSON
reformat attempt, `fmtBytes` the external `formatBytes`, `parseRes` the
outcome of `parseRequest` and `execRes` the outcome of `executeRequest`
(consulted only when parsing succeeded), plus the pre-call session state and
element state.  The body follows the source line by line: unconditional
history append; on success the response is built, timing/size/status are
displayed, the response becomes `currentResponse`, the baseline is set only
when it was falsy, the display shows a diff against the baseline exactly when
the baseline was already set and the show-diff toggle is checked, and a final
guard rewrites the display to plain highlighting when the toggle is off or
absent, the baseline is falsy, or the baseline equals the new response; any
thrown error is caught and rendered by the error display path. -/
def handleSendRequest (pretty : String → Option String) (fmtBytes : Nat → String)
    (parseRes : Except ErrInfo ParsedRequest) (execRes : Except ErrInfo ExecResult)
    (st : SessionState) (el : Elements) : SendOutcome :=
  let rawContent := el.rawRequestInputText
  let useHttps := el.useHttpsChecked
  let st0 := { st with history := st.history ++ [(rawContent, useHttps)] }
  match parseRes with
  | .error err =>
    { state := st0
      elements := applyErrorDisplay el err
      trace := [.historyAppend rawContent useHttps] }
  | .ok _ =>
    let el1 := { el with resStatusText := "Sending...", resStatusClass := "status-badge" }
    match execRes with
    | .error err =>
      { state := st0
        elements := applyErrorDisplay el1 err
        trace := [.historyAppend rawContent useHttps, .networkAttempt] }
    | .ok r =>
      let rawResponse := buildRawResponse pretty r
      let el2 := { el1 with
        resTimeText := toString r.duration ++ "ms"
        resSizeText := fmtBytes r.size
        resStatusText := toString r.status ++ " " ++ r.statusText
        resStatusClass := statusClass r.status }
      let st1 := { st0 with currentResponse := some rawResponse }
      let stEl :=
        if !(jsTruthyStr st1.regularRequestBaseline) then
          ({ st1 with regularRequestBaseline := some rawResponse },
           { el2 with diffToggleDisplay := "none" })
        else
          let el3 := { el2 with diffToggleDisplay := "flex" }
          if showDiffOn el3 then
            let diffMarkup := Markup.renderDiff (st1.regularRequestBaseline.getD "") rawResponse
            (st1, { el3 with rawResponseDisplay := .html diffMarkup })
          else
            (st1, { el3 with rawResponseDisplay := .html (.highlightHTTP rawResponse) })
      let st2 := stEl.1
      let el4 :=
        if !(showDiffOn stEl.2) || !(jsTruthyStr st2.regularRequestBaseline)
            || baselineEq st2.regularRequestBaseline rawResponse then
          { stEl.2 with rawResponseDisplay := .html (.highlightHTTP rawResponse) }
        else
          stEl.2
      { state := st2
        elements := { el4 with rawResponseDisplayShown := true, rawResponseDisplayVisible := true }
        trace := [.historyAppend rawContent useHttps, .networkAttempt] }

/-! ## Scope classifier (modelled from the spec; `state.js` is not in the
available sources) and the settings module (`settings.js`) -/

/-- Drop characters up to and including the first scheme separator `://`;
returns `none` when the separator is absent (the malformed-URL case in which
`new URL(url)` throws). -/
def findSchemeRest : List Char → Option (List Char)
  | ':' :: '/' :: '/' :: rest => some rest
  | _ :: rest => findSchemeRest rest
  | [] => none

/-- Take the path-plus-query suffix of the part after the scheme separator:
everything from the first `/` on, or the root path `/` when the authority has
no explicit path. -/
def pathQueryOfRest (rest : List Char) : List Char :=
  let p := rest.dropWhile (fun c => !(c == '/'))
  if p.isEmpty then ['/'] else p

/-- Modelled from the spec: the path extraction of `isOutOfScope` in
`state.js` (not in the available sources) — the scheme and host of the URL
are stripped before matching and a malformed URL (no scheme separator) yields
no path. -/
def extractPathQuery (url : String) : Option String :=
  (findSchemeRest url.toList).map (fun rest => String.mk (pathQueryOfRest rest))

/-- Modelled from the spec: the pattern matcher of `state.js` (not in the
available sources) — true when any pattern in the sequence matches the path.
The single-pattern regex test is kept abstract as the parameter `m`
(an invalid pattern is a non-matching `m`). -/
def matchesAny (m : String → String → Bool) (path : String) (patterns : List String) : Bool :=
  patterns.any (fun pat => m pat path)

/-- Modelled from the spec: `isOutOfScope` of `state.js` (not in the
available sources) — extract path+query (malformed URLs classify as not
out-of-scope), return false when any in-scope pattern matches, otherwise
return whether any OOS pattern matches. -/
def classify (m : String → String → Bool) (url : String)
    (oosPatterns inScopePatterns : List String) : Bool :=
  match extractPathQuery url with
  | none => false
  | some path =>
    if matchesAny m path inScopePatterns then false
    else matchesAny m path oosPatterns

/-- One captured request as held in `state.requests`: the URL of the inner
request object, the raw text, the https flag, and the mutable `isOOS`
classification flag. -/
structure RequestRecord where
  url : String
  rawText : String
  useHttps : Bool
  isOOS : Bool
  deriving Repr, DecidableEq

/-- The identity of a request record apart from its derived `isOOS` flag. -/
def RequestRecord.core (req : RequestRecord) : String × String × Bool :=
  (req.url, req.rawText, req.useHttps)

/-- Embedding of `reclassifyAllRequests` of `settings.js`: every record of
the collection gets its `isOOS` flag recomputed in place from its URL
(via the classifier modelled above), in the original order. -/
def reclassifyAll (m : String → String → Bool) (oosPatterns inScopePatterns : List String)
    (requests : List RequestRecord) : List RequestRecord :=
  requests.map (fun req => { req with isOOS := classify m req.url oosPatterns inScopePatterns })

/-- The `DEFAULT_OOS_PATTERNS` constant of `settings.js` (pattern strings
after JS escape processing). -/
def DEFAULT_OOS_PATTERNS : List String := [
  "^/_next/",
  "^/__nextjs",
  "^/next/",
  "^/_app/",
  "^/@svelte",
  "^\\.svelte-kit/",
  "^/_nuxt/",
  "^/__nuxt",
  "^/@vite",
  "^/@react-refresh",
  "^/@id/",
  "^/node_modules/",
  "^/__vite_",
  "^/webpack",
  "\\.hot-update\\.",
  "^/sockjs-node",
  "\\.map$",
  "^/_ws$",
  "^/ws$",
  "^/socket\\.io",
  "^/static/chunks/",
  "^/static/development/",
  "^/static/webpack/",
  "^/_buildManifest\\.js",
  "^/_ssgManifest\\.js",
  "^/gtm\\.js",
  "^/gtag/",
  "/analytics",
  "/collect\\?",
  "^/cdn-cgi/",
  "\\?t=\\d+$",
  "^/hmr$",
  "/log\\?",
  "/punctual",
  "/_/scs/"]

/-- The `oosPatterns` field of the object parsed from persisted settings:
the key can be absent, hold JSON `null`, or hold a list of strings. -/
inductive PersistedOOS where
  | missing
  | nullVal
  | list (l : List String)
  deriving Repr, DecidableEq

/-- The content of `localStorage.getItem` for the settings key: absent
(`null`), present but not valid JSON (`JSON.parse` throws), or valid with
the given `oosPatterns` field. -/
inductive StoredSettings where
  | absent
  | invalid
  | valid (oosField : PersistedOOS)
  deriving Repr, DecidableEq

/-- Embedding of the OOS-pattern handling of `loadSettings` in `settings.js`.
Input: the persisted settings and the in-memory `settings.oosPatterns.value`
before the call (the module initialises it to `[]`).  Output: the in-memory
value after the call, and the list handed to `updateOOSPatterns` (the
classifier update), `none` when that call is never reached.  The body mirrors
the source: when storage holds valid JSON the persisted field overwrites the
value unless the key is absent; a falsy or empty value is then replaced by a
copy of the defaults and the classifier is updated and all requests
reclassified; when `JSON.parse` throws, the whole body is skipped by the
`catch` and nothing is replaced or updated. -/
def loadSettingsOOS (stored : StoredSettings) (current : List String) :
    List String × Option (List String) :=
  match stored with
  | .invalid => (current, none)
  | .absent =>
    let v := if current.isEmpty then DEFAULT_OOS_PATTERNS else current
    (v, some v)
  | .valid f =>
    let merged : Option (List String) :=
      match f with
      | .missing => some current
      | .nullVal => none
      | .list l => some l
    let v :=
      match merged with
      | none => DEFAULT_OOS_PATTERNS
      | some l => if l.isEmpty then DEFAULT_OOS_PATTERNS else l
    (v, some v)

/-! ## Concrete example data used by witnesses and counterexamples -/

/-- Element state with the show-diff toggle present and checked. -/
def exElems : Elements :=
  { rawRequestInputText := "GET /a HTTP/1.1"
    useHttpsChecked := true
    resStatusText := ""
    resStatusClass := ""
    resTimeText := ""
    resSizeText := ""
    showDiffCheckbox := some true
    diffToggleDisplay := ""
    rawResponseDisplay := .unset
    rawResponseDisplayShown := false
    rawResponseDisplayVisible := false }

/-- A successful 200 response with body `hi` and no headers. -/
def exExec : ExecResult :=
  { status := 200, statusText := "OK", duration := 5, size := 2, headers := [], body := "hi" }

/-- The raw response text built from `exExec` when the body is not JSON. -/
def exRaw : String := "HTTP/1.1 200 OK\n\nhi"

/-- Session state whose baseline equals the response about to arrive. -/
def exStateEq : SessionState :=
  { currentResponse := none, regularRequestBaseline := some exRaw, history := [],
    oosPatterns := [], inScopePatterns := [] }

/-- Session state whose baseline differs from the response about to arrive. -/
def exStateOld : SessionState :=
  { currentResponse := none, regularRequestBaseline := some "HTTP/1.1 200 OK\n\nold",
    history := [], oosPatterns := [], inScopePatterns := [] }

/-- A Ctrl+Space keydown event. -/
def wEvent : KeyEventRec :=
  { code := "Space", ctrlKey := true, metaKey := false, shiftKey := false, altKey := false }

/-- The default send-request chord. -/
def wChordSend : Shortcut :=
  { key := "Space", ctrl := true, shift := false, alt := false, description := "Send request" }

/-- The default clear-input chord. -/
def wChordClear : Shortcut :=
  { key := "KeyL", ctrl := true, shift := false, alt := false,
    description := "Clear request input" }

/-! ## Theorems -/

/-- Claim C1: for every URL whose path+query matches at least one in-scope
pattern, `classify` returns false (not out-of-scope) regardless of the OOS
pattern list — in-scope patterns always override OOS patterns.  Stated for
every single-pattern matcher `m`. -/
theorem classify_inScope_override (m : String → String → Bool) (url path : String)
    (oos inScope : List String)
    (hp : extractPathQuery url = some path)
    (hm : matchesAny m path inScope = true) :
    classify m url oos inScope = false := by
  simp [classify, hp, hm]

/-- Witness for claim C1: a URL whose path matches the in-scope pattern
`/api` classifies as in-scope even though the same pattern (and another) is
in the OOS list. -/
theorem classify_inScope_override_witness :
    matchesAny (fun pat s => pat.toList.isPrefixOf s.toList) "/api/users?id=1" ["/api"] = true ∧
    classify (fun pat s => pat.toList.isPrefixOf s.toList) "https://example.com/api/users?id=1"
      ["/api", "/analytics"] ["/api"] = false := by
  refine ⟨by decide, ?_⟩
  exact classify_inScope_override (fun pat s => pat.toList.isPrefixOf s.toList)
    "https://example.com/api/users?id=1" "/api/users?id=1" ["/api", "/analytics"] ["/api"]
    (by decide) (by decide)

/-- Claim C2: the baseline follows the two-state protocol — on a successful
response, a falsy (EMPTY) baseline is set to the freshly built response text
verbatim, while a truthy (SET) baseline is left unchanged; in both cases the
new response becomes `currentResponse`. -/
theorem handleSendRequest_baseline_protocol (pretty : String → Option String)
    (fmtBytes : Nat → String) (p : ParsedRequest) (r : ExecResult)
    (st : SessionState) (el : Elements) :
    (handleSendRequest pretty fmtBytes (.ok p) (.ok r) st el).state.regularRequestBaseline =
      (if jsTruthyStr st.regularRequestBaseline then st.regularRequestBaseline
       else some (buildRawResponse pretty r)) ∧
    (handleSendRequest pretty fmtBytes (.ok p) (.ok r) st el).state.currentResponse =
      some (buildRawResponse pretty r) := by
  simp only [handleSendRequest]
  cases h : jsTruthyStr st.regularRequestBaseline with
  | true =>
    simp only [h, Bool.not_true, Bool.false_eq_true, if_false, if_true]
    constructor
    · split <;> rfl
    · split <;> rfl
  | false =>
    simp only [h, Bool.not_false, if_true, Bool.false_eq_true, if_false]
    constructor <;> trivial

/-- Counterexample to claim C3 as stated: with the baseline SET and the
show-diff toggle on, a response identical to the baseline is displayed as
plain highlighting, not as `renderDiff(baseline, currentResponse)` — the
final guard of `handleSendRequest` rewrites the display whenever the
baseline equals the new response. -/
theorem handleSendRequest_diff_display_counterexample :
    (handleSendRequest (fun _ => none) (fun n => toString n) (.ok ⟨"u"⟩) (.ok exExec)
        exStateEq exElems).elements.rawResponseDisplay =
      .html (.highlightHTTP exRaw) ∧
    showDiffOn exElems = true ∧
    exStateEq.regularRequestBaseline = some exRaw ∧
    (handleSendRequest (fun _ => none) (fun n => toString n) (.ok ⟨"u"⟩) (.ok exExec)
        exStateEq exElems).elements.rawResponseDisplay ≠
      .html (.renderDiff exRaw exRaw) := by
  refine ⟨by decide, by decide, by decide, by decide⟩

/-- Claim C3 (amended): for a successful response with the baseline SET, the
displayed body is `renderDiff(baseline, currentResponse)` when the show-diff
toggle is on and the new response differs from the baseline, and the plain
highlighted rendering `highlightHTTP(currentResponse)` when the toggle is off
or absent or the new response equals the baseline. -/
theorem handleSendRequest_display_with_set_baseline (pretty : String → Option String)
    (fmtBytes : Nat → String) (p : ParsedRequest) (r : ExecResult)
    (st : SessionState) (el : Elements) (b : String)
    (hb : st.regularRequestBaseline = some b) (hne : b ≠ "") :
    (handleSendRequest pretty fmtBytes (.ok p) (.ok r) st el).elements.rawResponseDisplay =
      (if showDiffOn el = true ∧ b ≠ buildRawResponse pretty r
       then .html (.renderDiff b (buildRawResponse pretty r))
       else .html (.highlightHTTP (buildRawResponse pretty r))) := by
  have ht : jsTruthyStr st.regularRequestBaseline = true := by
    simp [jsTruthyStr, hb, hne]
  cases hsc : el.showDiffCheckbox with
  | none =>
    simp [handleSendRequest, ht, showDiffOn, hsc, hb, baselineEq, jsTruthyStr, hne]
  | some c =>
    cases c with
    | false =>
      simp [handleSendRequest, ht, showDiffOn, hsc, hb, baselineEq, jsTruthyStr, hne]
    | true =>
      cases heq : (b == buildRawResponse pretty r) with
      | true =>
        have hbe : b = buildRawResponse pretty r := by simpa using heq
        subst hbe
        simp [handleSendRequest, ht, showDiffOn, hsc, hb, baselineEq, jsTruthyStr, hne]
      | false =>
        have hne2 : b ≠ buildRawResponse pretty r := by simpa using heq
        simp [handleSendRequest, ht, showDiffOn, hsc, hb, baselineEq, jsTruthyStr, hne,
          heq, hne2]

/-- Witness for the amended claim C3: with diff mode on and a baseline
differing from the new response, the displayed content is the diff of the two. -/
theorem handleSendRequest_display_with_set_baseline_witness :
    (handleSendRequest (fun _ => none) (fun n => toString n) (.ok ⟨"u"⟩) (.ok exExec)
        exStateOld exElems).elements.rawResponseDisplay =
      .html (.renderDiff "HTTP/1.1 200 OK\n\nold" exRaw) := by
  have h := handleSendRequest_display_with_set_baseline (fun _ => none) (fun n => toString n)
    ⟨"u"⟩ exExec exStateOld exElems "HTTP/1.1 200 OK\n\nold" (by decide) (by decide)
  rw [h]
  decide

/-- Claim C4: `reclassifyAll` is idempotent — applying it twice yields the
same `isOOS` flags as applying it once — and it preserves the order and
membership of the request collection (every record keeps its URL, raw text
and https flag, in the original order). -/
theorem reclassifyAll_idempotent_order_preserving (m : String → String → Bool)
    (oos inScope : List String) (requests : List RequestRecord) :
    reclassifyAll m oos inScope (reclassifyAll m oos inScope requests) =
      reclassifyAll m oos inScope requests ∧
    (reclassifyAll m oos inScope requests).map RequestRecord.core =
      requests.map RequestRecord.core := by
  constructor
  · simp [reclassifyAll, List.map_map, Function.comp]
  · simp [reclassifyAll, List.map_map, Function.comp, RequestRecord.core]

/-- Claim C5: a chord matches a keyboard event iff all four predicates hold —
key-code equality, ctrl-or-meta presence equal to the ctrl flag, shift
presence equal to the shift flag, and alt presence equal to the alt flag; in
particular an extra pressed modifier not required by the chord prevents the
match. -/
theorem matchesShortcut_exact_match_iff (e : KeyEventRec) (sc : Shortcut) :
    matchesShortcut e sc = true ↔
      (e.code = sc.key ∧ (e.ctrlKey || e.metaKey) = sc.ctrl ∧
       e.shiftKey = sc.shift ∧ e.altKey = sc.alt) := by
  rcases e with ⟨code, ck, mk, sk, ak⟩
  rcases sc with ⟨key, c, s, a, d⟩
  simp only [matchesShortcut]
  cases c <;> cases s <;> cases a <;> cases ck <;> cases mk <;> cases sk <;> cases ak <;>
    simp

/-- Helper: one keydown event fires at most one action. -/
theorem runKeydown_fires_at_most_one (e : KeyEventRec) (l : List (String × Shortcut)) :
    (runKeydown l e).1.length ≤ 1 := by
  induction l with
  | nil => simp [runKeydown]
  | cons p rest ih =>
    obtain ⟨aid, sc⟩ := p
    simp only [runKeydown]
    split
    · split <;> simp
    · exact ih

/-- Claim C6: dispatch tests bindings in mapping iteration order and the
first matching binding fires alone — when the bindings before a matching
entry all fail to match, that entry is selected (deterministically, even if a
binding with an identical chord occurs later), its action fires exactly when
registered, and at most one action runs per event. -/
theorem dispatch_first_match_wins (e : KeyEventRec) (l1 l2 : List (String × Shortcut))
    (aid : String) (sc : Shortcut)
    (h1 : ∀ p ∈ l1, matchesShortcut e p.2 = false)
    (h2 : matchesShortcut e sc = true) :
    dispatchShortcut (l1 ++ (aid, sc) :: l2) e = some aid ∧
    (runKeydown (l1 ++ (aid, sc) :: l2) e).1 =
      (if registeredActionIds.contains aid then [aid] else []) ∧
    ∀ l : List (String × Shortcut), (runKeydown l e).1.length ≤ 1 := by
  refine ⟨?_, ?_, fun l => runKeydown_fires_at_most_one e l⟩
  · induction l1 with
    | nil => simp [dispatchShortcut, h2]
    | cons p rest ih =>
      obtain ⟨a, s⟩ := p
      have hp : matchesShortcut e s = false := h1 (a, s) (List.mem_cons_self _ _)
      simp only [List.cons_append, dispatchShortcut, hp, Bool.false_eq_true, if_false]
      exact ih (fun q hq => h1 q (List.mem_cons_of_mem _ hq))
  · induction l1 with
    | nil => simp [runKeydown, h2]
    | cons p rest ih =>
      obtain ⟨a, s⟩ := p
      have hp : matchesShortcut e s = false := h1 (a, s) (List.mem_cons_self _ _)
      simp only [List.cons_append, runKeydown, hp, Bool.false_eq_true, if_false]
      exact ih (fun q hq => h1 q (List.mem_cons_of_mem _ hq))

/-- Witness for claim C6: with a non-matching binding first and two bindings
carrying the identical matching chord, the earlier of the two is selected and
its action is the only one fired. -/
theorem dispatch_first_match_wins_witness :
    dispatchShortcut ([("clearInput", wChordClear)] ++
      ("sendRequest", wChordSend) :: [("duplicate", wChordSend)]) wEvent = some "sendRequest" ∧
    (runKeydown ([("clearInput", wChordClear)] ++
      ("sendRequest", wChordSend) :: [("duplicate", wChordSend)]) wEvent).1 =
      ["sendRequest"] := by
  have h := dispatch_first_match_wins wEvent [("clearInput", wChordClear)]
    [("duplicate", wChordSend)] "sendRequest" wChordSend (by decide) (by decide)
  refine ⟨h.1, ?_⟩
  rw [h.2.1]
  decide

/-- Claim C7: when `executeRequest` fails, the failure is caught at the
session boundary — the status shows the error badge (text `Error`, class
`status-badge status-5xx`), timing shows `0ms`, the response area displays
the error message and stack instead of a response body, and the baseline and
both classification pattern lists keep their pre-call values. -/
theorem handleSendRequest_network_failure_recovery (pretty : String → Option String)
    (fmtBytes : Nat → String) (p : ParsedRequest) (e : ErrInfo)
    (st : SessionState) (el : Elements) :
    (handleSendRequest pretty fmtBytes (.ok p) (.error e) st el).elements.resStatusText =
      "Error" ∧
    (handleSendRequest pretty fmtBytes (.ok p) (.error e) st el).elements.resStatusClass =
      "status-badge status-5xx" ∧
    (handleSendRequest pretty fmtBytes (.ok p) (.error e) st el).elements.resTimeText = "0ms" ∧
    (handleSendRequest pretty fmtBytes (.ok p) (.error e) st el).elements.rawResponseDisplay =
      .text ("Error: " ++ e.message ++ "\n\nStack: " ++ e.stack) ∧
    (handleSendRequest pretty fmtBytes (.ok p) (.error e) st el).state.regularRequestBaseline =
      st.regularRequestBaseline ∧
    (handleSendRequest pretty fmtBytes (.ok p) (.error e) st el).state.oosPatterns =
      st.oosPatterns ∧
    (handleSendRequest pretty fmtBytes (.ok p) (.error e) st el).state.inScopePatterns =
      st.inScopePatterns := by
  simp [handleSendRequest, applyErrorDisplay]

/-- Claim C8: every invocation of the send path appends the raw request text
and the https flag to request history as its first observable event — before
any network attempt and regardless of the outcome (parse failure, network
rejection or success). -/
theorem handleSendRequest_history_before_network (pretty : String → Option String)
    (fmtBytes : Nat → String) (parseRes : Except ErrInfo ParsedRequest)
    (execRes : Except ErrInfo ExecResult) (st : SessionState) (el : Elements) :
    (handleSendRequest pretty fmtBytes parseRes execRes st el).trace.head? =
      some (.historyAppend el.rawRequestInputText el.useHttpsChecked) ∧
    (handleSendRequest pretty fmtBytes parseRes execRes st el).state.history =
      st.history ++ [(el.rawRequestInputText, el.useHttpsChecked)] := by
  cases parseRes with
  | error e => simp [handleSendRequest]
  | ok p =>
    cases execRes with
    | error e => simp [handleSendRequest]
    | ok r =>
      simp only [handleSendRequest]
      constructor
      · rfl
      · split
        · rfl
        · split <;> rfl

/-- Claim C9: when the first matching binding carries an action identifier
with no registered handler, the event is silently consumed — no action is
invoked (and the model is a total function, so no error is raised), while
`preventDefault` is still called. -/
theorem dispatch_unregistered_action_ignored (e : KeyEventRec)
    (l1 l2 : List (String × Shortcut)) (aid : String) (sc : Shortcut)
    (h1 : ∀ p ∈ l1, matchesShortcut e p.2 = false)
    (h2 : matchesShortcut e sc = true)
    (h3 : registeredActionIds.contains aid = false) :
    (runKeydown (l1 ++ (aid, sc) :: l2) e).1 = [] ∧
    (runKeydown (l1 ++ (aid, sc) :: l2) e).2 = true := by
  induction l1 with
  | nil =>
    have h3m : aid ∉ registeredActionIds := by simpa using h3
    simp [runKeydown, h2, h3m]
  | cons p rest ih =>
    obtain ⟨a, s⟩ := p
    have hp : matchesShortcut e s = false := h1 (a, s) (List.mem_cons_self _ _)
    simp only [List.cons_append, runKeydown, hp, Bool.false_eq_true, if_false]
    exact ih (fun q hq => h1 q (List.mem_cons_of_mem _ hq))

/-- Witness for claim C9: a matching binding for the unregistered id
`explainRequest` fires nothing, though the event is consumed. -/
theorem dispatch_unregistered_action_ignored_witness :
    (runKeydown [("explainRequest", wChordSend)] wEvent).1 = [] ∧
    (runKeydown [("explainRequest", wChordSend)] wEvent).2 = true := by
  have h := dispatch_unregistered_action_ignored wEvent [] [("explainRequest", wChordSend)]
    "explainRequest" wChordSend (by simp) (by decide) (by decide)
  simpa using h

/-- Counterexample to claim C10 as stated: when the persisted settings are
present but not valid JSON, `JSON.parse` throws, the `catch` swallows the
error, and `loadSettings` completes leaving the effective OOS pattern list
empty (the initial in-memory value) and never updating the classifier. -/
theorem loadSettings_invalid_storage_counterexample :
    (loadSettingsOOS .invalid []).1 = [] ∧ (loadSettingsOOS .invalid []).2 = none := by
  exact ⟨rfl, rfl⟩

/-- Claim C10 (amended): when the persisted settings are absent or valid
JSON, the effective OOS pattern list after `loadSettings` is never empty and
is the list handed to the classifier update; a null or empty persisted list —
or an absent one while the in-memory value is still the initial empty list —
is replaced by the built-in `DEFAULT_OOS_PATTERNS`; only when parsing the
persisted settings throws is the previous value kept unchanged and the
classifier not updated. -/
theorem loadSettings_oos_defaults (f : PersistedOOS) (current : List String) :
    (loadSettingsOOS (.valid f) current).1 ≠ [] ∧
    (loadSettingsOOS .absent current).1 ≠ [] ∧
    (loadSettingsOOS (.valid f) current).2 = some (loadSettingsOOS (.valid f) current).1 ∧
    (loadSettingsOOS .absent current).2 = some (loadSettingsOOS .absent current).1 ∧
    (loadSettingsOOS (.valid .nullVal) current).1 = DEFAULT_OOS_PATTERNS ∧
    (loadSettingsOOS (.valid (.list [])) current).1 = DEFAULT_OOS_PATTERNS ∧
    (loadSettingsOOS (.valid .missing) []).1 = DEFAULT_OOS_PATTERNS ∧
    (loadSettingsOOS .absent []).1 = DEFAULT_OOS_PATTERNS ∧
    (loadSettingsOOS .invalid current).1 = current ∧
    (loadSettingsOOS .invalid current).2 = none := by
  have hdef : DEFAULT_OOS_PATTERNS ≠ [] := by simp [DEFAULT_OOS_PATTERNS]
  refine ⟨?_, ?_, ?_, ?_, ?_, ?_, ?_, ?_, rfl, rfl⟩
  · cases f with
    | missing =>
      simp only [loadSettingsOOS]
      split <;> simp_all
    | nullVal => simpa [loadSettingsOOS] using hdef
    | list l =>
      simp only [loadSettingsOOS]
      split <;> simp_all
  · simp only [loadSettingsOOS]
    split <;> simp_all
  · cases f <;> rfl
  · rfl
  · rfl
  · rfl
  · rfl
  · rfl

end Rep
